import Mathlib

/-!
Verification development for the Media-Finder multi-tracker query engine.

The definitions below are a shallow embedding of the Python source:
`cmds/api_commands.py` (the driver `query_additional_apis` with its nested
`filter_results`, `check_media_types`, `export_json`), the revised module
`cmds/processing.py` (`filter_results`, `check_media_types`), and
`utils/validation.py` (`validate_env_vars`).  Python dictionaries with
possibly-missing keys are modelled with `Option` fields; a subscript access
`d[k]` on a missing key is a `KeyError`, modelled with `Except`.  Python
exceptions other than `requests.RequestException` propagate out of the
tracker loop, so the driver as a whole returns `Except`.
-/

namespace MediaFinder

/-- Python exceptions that the embedded code can raise. -/
inductive PyErr where
  | keyError (k : String)
  | typeError (msg : String)
deriving DecidableEq, Repr

/-- Boolean contiguous-sublist test. -/
def infixB [BEq α] (xs : List α) : List α → Bool
  | [] => xs.isEmpty
  | y :: ys => xs.isPrefixOf (y :: ys) || infixB xs ys

/-- Python substring test `needle in hay` on strings. -/
def pyIn (needle hay : String) : Bool :=
  infixB needle.data hay.data

/-- Python `str.lower()` (ASCII case folding, as in the listing names and
category tokens the code compares); defined over the character list so that
it evaluates inside the kernel. -/
def pyToLower (s : String) : String :=
  ⟨s.data.map Char.toLower⟩

/-- Python `str.strip()`: leading and trailing whitespace removed. -/
def pyTrim (s : String) : String :=
  ⟨((s.data.dropWhile Char.isWhitespace).reverse.dropWhile
      Char.isWhitespace).reverse⟩

/-- Splitting a character list on a separator character, keeping empty
groups (Python `str.split(sep)` semantics: the result is never empty). -/
def splitOnCharList (c : Char) : List Char → List (List Char)
  | [] => [[]]
  | x :: xs =>
    if x = c then [] :: splitOnCharList c xs
    else
      match splitOnCharList c xs with
      | [] => [[x]]
      | g :: gs => (x :: g) :: gs

/-- Python `search_query.split("^")`. -/
def pySplitCaret (s : String) : List String :=
  (splitOnCharList (Char.ofNat 94) s.data).map fun g => ⟨g⟩

deriving instance DecidableEq for Except

/-- The `attributes` sub-dictionary of one listing; both keys may be absent. -/
structure Attrs where
  name : Option String
  type : Option String
deriving DecidableEq, Repr

/-- One element of the `data` array of a tracker response; the `attributes`
key may be absent. -/
structure Item where
  attributes : Option Attrs
deriving DecidableEq, Repr

/-- Subscript access `item["attributes"]` (raises `KeyError` when absent). -/
def getAttrs (i : Item) : Except PyErr Attrs :=
  match i.attributes with
  | some a => .ok a
  | none => .error (.keyError "attributes")

/-- Subscript access `item["attributes"]["name"]`. -/
def getName (i : Item) : Except PyErr String :=
  match getAttrs i with
  | .error e => .error e
  | .ok a =>
    match a.name with
    | some n => .ok n
    | none => .error (.keyError "name")

/-- The defaulted access `item.get("attributes", {}).get("name", "")` used by
the `processing.py` revision (never raises). -/
def getNameD (i : Item) : String :=
  match i.attributes with
  | some a => a.name.getD ""
  | none => ""

/-- Boolean well-formedness used in theorem hypotheses: the listing carries
`attributes` with a `name`. -/
def wfItem : Item → Bool
  | ⟨some a⟩ => a.name.isSome
  | ⟨none⟩ => false

/-- A parsed JSON response body, restricted to the dictionary shape the code
manipulates: an optional `data` key holding a list of listings, plus a flag
recording whether the dictionary has any other key (for Python truthiness of
the whole dictionary). -/
structure JsonDoc where
  dataField : Option (List Item)
  otherKeys : Bool
deriving DecidableEq, Repr

/-- A Python list comprehension whose predicate can raise: items are
inspected left to right and the first raise propagates. -/
def pyFilterM (p : α → Except ε Bool) : List α → Except ε (List α)
  | [] => .ok []
  | x :: xs =>
    match p x with
    | .error e => .error e
    | .ok b =>
      match pyFilterM p xs with
      | .error e => .error e
      | .ok r => .ok (if b then x :: r else r)

/-- Python `any(...)` over one generator, short-circuiting, with a predicate
that can raise. -/
def anyRowM (p : β → Except ε Bool) : List β → Except ε Bool
  | [] => .ok false
  | y :: ys =>
    match p y with
    | .error e => .error e
    | .ok true => .ok true
    | .ok false => anyRowM p ys

/-- Python `any(... for x in xs for y in ys)` over a two-level generator. -/
def anyPairM (p : α → β → Except ε Bool) : List α → List β → Except ε Bool
  | [], _ => .ok false
  | x :: xs, ys =>
    match anyRowM (p x) ys with
    | .error e => .error e
    | .ok true => .ok true
    | .ok false => anyPairM p xs ys

/-- One listing's test in the nested `filter_results` of
`cmds/api_commands.py` (lines 90-95):
`all(term.lower() in item["attributes"]["name"].lower() for term in search_query.split("^"))`.
The name subscript raises `KeyError` when a field is absent (the split list
is never empty, so the name is always demanded).  Terms are NOT trimmed. -/
def itemMatches (q : String) (i : Item) : Except PyErr Bool :=
  match getName i with
  | .error e => .error e
  | .ok n =>
    .ok ((pySplitCaret q).all fun term =>
      pyIn (pyToLower term) (pyToLower n))

/-- The nested `filter_results(data, search_query)` of `cmds/api_commands.py`
applied to `data["data"]`. -/
def filter_results (items : List Item) (q : String) : Except PyErr (List Item) :=
  pyFilterM (itemMatches q) items

/-- The term list of `cmds/processing.py` `filter_results` (line 221):
`[term.strip().lower() for term in search_query.split("^")]`. -/
def processingTerms (q : String) : List String :=
  (pySplitCaret q).map fun t => pyToLower (pyTrim t)

/-- The revised `filter_results` of `cmds/processing.py` (lines 213-237):
defaulted accesses, terms trimmed and lowered. -/
def processing_filter_results (doc : JsonDoc) (q : String) : List Item :=
  (doc.dataField.getD []).filter fun item =>
    (processingTerms q).all fun term =>
      pyIn term (pyToLower (getNameD item))

/-- The fixed media-type list of `cmds/api_commands.py` (line 16). -/
def MEDIA_TYPES : List String :=
  ["REMUX", "WEB-DL", "Encode", "Full Disc", "WEBip"]

/-- The comprehension at `cmds/api_commands.py` line 99:
`[item["attributes"]["type"] for item in data["data"] if "type" in item["attributes"]]`
(raises when `attributes` is absent). -/
def siteMediaTypes : List Item → Except PyErr (List String)
  | [] => .ok []
  | i :: is =>
    match getAttrs i with
    | .error e => .error e
    | .ok a =>
      match siteMediaTypes is with
      | .error e => .error e
      | .ok rest =>
        match a.type with
        | some t => .ok (t :: rest)
        | none => .ok rest

/-- One pair of the generator at `cmds/api_commands.py` lines 101-105:
`media_type.lower() in item["attributes"]["name"].lower() or media_type.lower() == t.lower()`. -/
def foundPair (mt : String) (i : Item) (t : String) : Except PyErr Bool :=
  match getName i with
  | .error e => .error e
  | .ok n =>
    .ok (pyIn (pyToLower mt) (pyToLower n) || (pyToLower mt == pyToLower t))

/-- The `any(... for item in data["data"] for t in site_media_types)` test of
the nested `check_media_types`: when `site_media_types` is empty the
generator is empty and the result is `false` regardless of names. -/
def mediaTypeFound (mt : String) (items : List Item) (smt : List String) :
    Except PyErr Bool :=
  anyPairM (foundPair mt) items smt

/-- The nested `check_media_types` of `cmds/api_commands.py` (lines 97-108),
returning the list of media types reported missing (in `MEDIA_TYPES`
order). -/
def check_media_types (items : List Item) : Except PyErr (List String) :=
  match siteMediaTypes items with
  | .error e => .error e
  | .ok smt =>
    pyFilterM
      (fun mt =>
        match mediaTypeFound mt items smt with
        | .error e => .error e
        | .ok f => .ok (!f))
      MEDIA_TYPES

/-- The taxonomy of `cmds/processing.py` `check_media_types` (lines 164-171). -/
def PROC_MEDIA_TYPES : List (String × List String) :=
  [("REMUX", ["remux"]),
   ("WEB-DL", ["web-dl"]),
   ("Encode", ["encode", "x264 encode", "x265 encode"]),
   ("Full Disc", ["full disc", "full disk"]),
   ("WEBRip", ["webrip", "web-rip"]),
   ("HDTV", ["hdtv"])]

/-- The comprehension at `cmds/processing.py` lines 178-182 (defaulted
guards, lowered values; total). -/
def procSiteMediaTypes (doc : JsonDoc) : List String :=
  (doc.dataField.getD []).filterMap fun i =>
    match i.attributes with
    | some a => a.type.map fun t => pyToLower t
    | none => none

/-- The found test at `cmds/processing.py` lines 191-195:
`site_type in synonyms or any(synonym in site_type for synonym in synonyms)`. -/
def procCategoryFound (doc : JsonDoc) (syns : List String) : Bool :=
  (procSiteMediaTypes doc).any fun st =>
    syns.contains st || syns.any fun syn => pyIn syn st

/-- The revised `check_media_types` of `cmds/processing.py` (lines 152-211):
the categories it reports missing.  Listing display names are never
inspected by this revision. -/
def processing_check_media_types (doc : JsonDoc) : List String :=
  PROC_MEDIA_TYPES.filterMap fun p =>
    if procCategoryFound doc p.2 then none else some p.1

/-- The ASCII apostrophe character, kept out of string literals. -/
def sq : String := String.singleton (Char.ofNat 39)

/-- The f-string reason at `cmds/api_commands.py` line 159:
`f"No results matching query {search_query}"` with the query wrapped in
apostrophes. -/
def noMatchReason (q : String) : String :=
  "No results matching query " ++ sq ++ q ++ sq

/-- One tracker configuration as handed to the driver (the four keys read at
`cmds/api_commands.py` lines 128-132).  A falsy Python value (absent or
empty string) is modelled as `""`. -/
structure Tracker where
  name : String
  code : String
  api_key : String
  url : String
deriving DecidableEq, Repr

/-- The observable outcome of the `requests.get` call for one tracker:
either a raised `requests.RequestException` (timeout, connection error, or
the non-2xx raised by `raise_for_status`), or a body that parses as JSON
(`some doc`) or fails to parse (`none`, the `json.JSONDecodeError` branch of
`handle_response`). -/
inductive HttpResult where
  | exn (msg : String)
  | ok (body : Option JsonDoc)
deriving DecidableEq, Repr

/-- The mutable aggregate state of `query_additional_apis`:
`failed_sites` (a dict, modelled as an insertion-ordered association list),
`successful_sites`, `collected_data`, `missing_media`, plus a log of the
trackers for which `requests.get` was invoked (used to state the
no-network-call properties). -/
structure AggState where
  failed : List (String × String)
  successful : List String
  collected : List (JsonDoc × String × String)
  missing_media : List (String × List String)
  requested : List String
deriving DecidableEq, Repr

/-- Python dict assignment `d[k] = v` on an association list. -/
def dictSet (d : List (String × String)) (k v : String) : List (String × String) :=
  match d with
  | [] => [(k, v)]
  | (k1, v1) :: rest =>
    if k1 = k then (k, v) :: rest else (k1, v1) :: dictSet rest k v

/-- Python `d.setdefault(k, []).append(v)` on a dict of lists. -/
def dictPush (d : List (String × List String)) (k v : String) :
    List (String × List String) :=
  match d with
  | [] => [(k, [v])]
  | (k1, vs) :: rest =>
    if k1 = k then (k1, vs ++ [v]) :: rest else (k1, vs) :: dictPush rest k v

/-- Python truthiness of the optional `search_query` argument
(`if search_query:`): `None` and `""` are falsy. -/
def queryTruthy : Option String → Bool
  | none => false
  | some q => !(q == "")

/-- The guard at `cmds/api_commands.py` line 154:
`if data and "data" in data and data["data"]:` — dict truthiness, key
presence, list truthiness. -/
def docHasResults (doc : JsonDoc) : Bool :=
  (doc.otherKeys || doc.dataField.isSome) && doc.dataField.isSome &&
    !(doc.dataField.getD []).isEmpty

/-- The tail of one loop iteration after any filtering (lines 166-171):
`check_media_types` runs unconditionally — even when a query was applied —
then the display, then `successful_sites.append`.  `collected_data` holds a
reference to the (possibly mutated-in-place) response dict, so the entry is
recorded here with its final value. -/
def afterFilter (st : AggState) (t : Tracker) (doc : JsonDoc) :
    Except PyErr AggState :=
  match check_media_types (doc.dataField.getD []) with
  | .error e => .error e
  | .ok missing =>
    .ok { st with
      collected := st.collected ++ [(doc, t.code, t.name)],
      missing_media := missing.foldl (fun mm mt => dictPush mm t.name mt) st.missing_media,
      successful := st.successful ++ [t.name] }

/-- The body-processing stage of one loop iteration (`cmds/api_commands.py`
lines 154-176), entered once the response parsed as JSON: the
`if data and "data" in data and data["data"]:` guard, the optional filter,
the unconditional classification, and the success/failure bookkeeping.
`collected_data` receives the response dict before this guard runs, but the
dict is mutated in place by `data["data"] = filtered_results`, so the entry
is recorded here with its final value. -/
def processDoc (search_query : Option String) (st : AggState)
    (t : Tracker) (doc : JsonDoc) : Except PyErr AggState :=
  if docHasResults doc then
    if queryTruthy search_query then
      match filter_results (doc.dataField.getD []) (search_query.getD "") with
      | .error e => .error e
      | .ok [] =>
        .ok { st with
          failed := dictSet st.failed t.name
            (noMatchReason (search_query.getD "")),
          collected := st.collected ++ [(doc, t.code, t.name)] }
      | .ok (f :: fs) =>
        afterFilter st t { doc with dataField := some (f :: fs) }
    else
      afterFilter st t doc
  else
    .ok { st with
      failed := dictSet st.failed t.name "No matching results",
      collected := st.collected ++ [(doc, t.code, t.name)] }

/-- The response-handling stage of one loop iteration: a raised
`requests.RequestException` is caught and merely logged (lines 178-180); a
JSON parse failure is recorded by `handle_response` and the iteration
continues (lines 147-150); a parsed body goes on to `processDoc`. -/
def processNet (search_query : Option String) (st : AggState)
    (t : Tracker) : HttpResult → Except PyErr AggState
  | .exn _ => .ok st
  | .ok none =>
    .ok { st with failed := dictSet st.failed t.name "Invalid JSON response" }
  | .ok (some doc) => processDoc search_query st t doc

/-- One iteration of the tracker loop of `query_additional_apis`
(`cmds/api_commands.py` lines 127-182).  Only a missing API key is guarded
(the URL is never checked); any exception other than a
`requests.RequestException` (e.g. a `KeyError` from `filter_results` or
`check_media_types`) propagates as `.error`.  The `requested` log records
that the `requests.get` call site was reached. -/
def processTracker (search_query : Option String) (st : AggState)
    (t : Tracker) (net : HttpResult) : Except PyErr AggState :=
  if t.api_key = "" then
    .ok { st with failed := dictSet st.failed t.name "Missing API key" }
  else
    processNet search_query
      { st with requested := st.requested ++ [t.name] } t net

/-- The tracker loop, each tracker paired with the outcome its
`requests.get` call would produce. -/
def runTrackers (search_query : Option String) :
    AggState → List (Tracker × HttpResult) → Except PyErr AggState
  | st, [] => .ok st
  | st, (t, net) :: rest =>
    match processTracker search_query st t net with
    | .error e => .error e
    | .ok st1 => runTrackers search_query st1 rest

/-- The empty aggregate the driver starts from. -/
def initState : AggState := ⟨[], [], [], [], []⟩

/-- The driver `query_additional_apis` up to the end of the tracker loop. -/
def query_additional_apis (search_query : Option String)
    (pairs : List (Tracker × HttpResult)) : Except PyErr AggState :=
  runTrackers search_query initState pairs

/-- The display guard at `cmds/api_commands.py` line 196:
`if missing_media and not search_query:` — the missing-media table is shown
only when no truthy query is active. -/
def missingTableDisplayed (search_query : Option String) (st : AggState) : Bool :=
  !st.missing_media.isEmpty && !(queryTruthy search_query)

/-- The JSON export filename built at `cmds/api_commands.py` line 113. -/
def exportFileName (tracker_code tmdb_id : String) : String :=
  tracker_code ++ "_TMDb_" ++ tmdb_id ++ ".json"

/-- Models the export loop at `cmds/api_commands.py` lines 184-187.  The
nested `export_json` is defined with four required parameters
`(logger, data, tracker_code, tracker_name)` (line 110) but the loop calls
`export_json(data, tracker_code, tracker_name)` with only three arguments,
so in Python the first iteration raises `TypeError` before any file is
written; with an empty collection (or export disabled) the loop body never
runs and nothing is written. -/
def exportPhase (output_json : Bool)
    (collected : List (JsonDoc × String × String)) :
    Except PyErr (List String) :=
  if output_json then
    match collected with
    | [] => .ok []
    | _ => .error (.typeError
        ("export_json() missing 1 required positional argument: " ++
          sq ++ "tracker_name" ++ sq))
  else .ok []

/-- One entry of `TRACKER_CONFIG` in `utils/validation.py` (lines 21-32). -/
structure TrackerSite where
  key : String
  name : String
deriving DecidableEq, Repr

/-- The static tracker table of `utils/validation.py`. -/
def TRACKER_CONFIG : List TrackerSite :=
  [⟨"ATH", "Aither"⟩, ⟨"BHD", "BeyondHD"⟩, ⟨"BLU", "Blutopia"⟩,
   ⟨"FNP", "FearNoPeer"⟩, ⟨"LDU", "TheLDU"⟩, ⟨"LST", "L0ST"⟩,
   ⟨"OTW", "OldToons.World"⟩, ⟨"OE", "OnlyEncodes"⟩, ⟨"RFX", "ReelFliX"⟩,
   ⟨"ULCX", "Upload.cx"⟩]

/-- Python truthiness of an `os.getenv` result: unset (`None`) and the empty
string are falsy. -/
def envTruthy : Option String → Bool
  | none => false
  | some s => !(s == "")

/-- The exceptions `validate_env_vars` can raise. -/
inductive ValErr where
  | missingEnvironmentVariable (keys : List String)
  | noValidTrackers
deriving DecidableEq, Repr

/-- `validate_env_vars` of `utils/validation.py` (lines 63-123), restricted
to the `trackers` component of its result dict: the required TMDb variables
are checked first, then every tracker with a truthy API key AND a truthy URL
is kept; if none qualifies, `NoValidTrackersError` is raised instead of
returning an empty list. -/
def validate_env_vars (env : String → Option String) :
    Except ValErr (List Tracker) :=
  let missing_required :=
    (["TMDB_API_KEY", "TMDB_URL"]).filter fun k => !(envTruthy (env k))
  if !missing_required.isEmpty then
    .error (.missingEnvironmentVariable missing_required)
  else
    let valid := TRACKER_CONFIG.filterMap fun site =>
      match env (site.key ++ "_API_KEY"), env (site.key ++ "_URL") with
      | some k, some u =>
        if k ≠ "" ∧ u ≠ "" then some ⟨site.name, site.key, k, u⟩ else none
      | _, _ => none
    if valid.isEmpty then .error .noValidTrackers else .ok valid

/-- The pure per-listing test equivalent to `itemMatches` on a well-formed
listing (untrimmed terms, as in the driver). -/
def matchB (q : String) (i : Item) : Bool :=
  (pySplitCaret q).all fun term =>
    pyIn (pyToLower term) (pyToLower (getNameD i))

/-- The pure found-test equivalent to `mediaTypeFound` on well-formed
listings: some (listing, collected type) pair matches by name substring or
type equality. -/
def foundB (mt : String) (items : List Item) (smt : List String) : Bool :=
  items.any fun i => smt.any fun t =>
    pyIn (pyToLower mt) (pyToLower (getNameD i)) || (pyToLower mt == pyToLower t)

/-- A listing whose display name contains REMUX but which carries no
format-type field. -/
def c1Item : Item := ⟨some ⟨some "Movie.REMUX", none⟩⟩

/-- A listing with a REMUX name and a WEB-DL format-type field. -/
def c1WItem : Item := ⟨some ⟨some "Movie.REMUX", some "WEB-DL"⟩⟩

/-- The first listing of the specification example for the filter. -/
def c2Item : Item := ⟨some ⟨some "The.Matrix.1999.REMUX", none⟩⟩

/-- A tracker with empty credentials. -/
def c3T1 : Tracker := ⟨"Aither", "ATH", "", "https://one.example"⟩

/-- A tracker whose request will fail with a 500 status. -/
def c3T2 : Tracker := ⟨"Blutopia", "BLU", "key2", "https://two.example"⟩

/-- A tracker returning valid data. -/
def c3T3 : Tracker := ⟨"FearNoPeer", "FNP", "key3", "https://three.example"⟩

/-- A well-formed response body with one REMUX listing. -/
def c3Doc : JsonDoc := ⟨some [⟨some ⟨some "Movie.2020.REMUX", some "REMUX"⟩⟩], false⟩

/-- The three-tracker scenario of the claim: empty credentials, a 500
response, valid data. -/
def c3Pairs : List (Tracker × HttpResult) :=
  [(c3T1, .exn "unused"),
   (c3T2, .exn "500 Server Error: Internal Server Error for url"),
   (c3T3, .ok (some c3Doc))]

/-- A fully-configured tracker. -/
def c4T : Tracker := ⟨"Aither", "ATH", "key", "https://one.example"⟩

/-- A response with one listing matching the query remux. -/
def c4Doc : JsonDoc := ⟨some [⟨some ⟨some "Movie.REMUX", some "REMUX"⟩⟩], false⟩

/-- One tracker whose whole response matches the active query. -/
def c4Pairs : List (Tracker × HttpResult) := [(c4T, .ok (some c4Doc))]

/-- The aggregate the driver reaches on `c4Pairs` with query remux. -/
def c4State : AggState :=
  ⟨[], ["Aither"], [(c4Doc, "ATH", "Aither")],
   [("Aither", ["WEB-DL", "Encode", "Full Disc", "WEBip"])], ["Aither"]⟩

/-- First tracker of the isolation scenario. -/
def c5T1 : Tracker := ⟨"Aither", "ATH", "key1", "https://one.example"⟩

/-- Second tracker of the isolation scenario. -/
def c5T2 : Tracker := ⟨"Blutopia", "BLU", "key2", "https://two.example"⟩

/-- A parseable response whose single listing lacks the name field. -/
def c5BadDoc : JsonDoc := ⟨some [⟨some ⟨none, none⟩⟩], false⟩

/-- A well-formed response whose listing matches the query x. -/
def c5GoodDoc : JsonDoc := ⟨some [⟨some ⟨some "xfile", none⟩⟩], false⟩

/-- A malformed first response followed by a healthy second tracker. -/
def c5Pairs : List (Tracker × HttpResult) :=
  [(c5T1, .ok (some c5BadDoc)), (c5T2, .ok (some c5GoodDoc))]

/-- The aggregate the second tracker alone would have produced. -/
def c5GoodState : AggState :=
  ⟨[], ["Blutopia"], [(c5GoodDoc, "BLU", "Blutopia")],
   [("Blutopia", ["REMUX", "WEB-DL", "Encode", "Full Disc", "WEBip"])],
   ["Blutopia"]⟩

/-- A tracker with an API key but an empty base URL. -/
def c6T : Tracker := ⟨"Blutopia", "BLU", "somekey", ""⟩

/-- The empty-URL tracker: `requests.get("")` raises `MissingSchema`, a
`RequestException`. -/
def c6Pairs : List (Tracker × HttpResult) :=
  [(c6T, .exn "Invalid URL: No scheme supplied.")]

/-- A tracker whose response is valid JSON with one listing. -/
def c7T : Tracker := ⟨"Aither", "ATH", "key", "https://one.example"⟩

/-- A valid response body for the export scenario. -/
def c7Doc : JsonDoc := ⟨some [⟨some ⟨some "Movie.REMUX", some "REMUX"⟩⟩], false⟩

/-- One successful tracker, export requested. -/
def c7Pairs : List (Tracker × HttpResult) := [(c7T, .ok (some c7Doc))]

/-- The aggregate reached on `c7Pairs` without a query. -/
def c7State : AggState :=
  ⟨[], ["Aither"], [(c7Doc, "ATH", "Aither")],
   [("Aither", ["WEB-DL", "Encode", "Full Disc", "WEBip"])], ["Aither"]⟩

/-- A parseable response whose data list is empty. -/
def c7EmptyDoc : JsonDoc := ⟨some [], false⟩

/-- One tracker failing with No matching results (still collected). -/
def c7Pairs2 : List (Tracker × HttpResult) := [(c7T, .ok (some c7EmptyDoc))]

/-- A listing matching the query remux. -/
def c8ItemA : Item := ⟨some ⟨some "Movie.REMUX", some "REMUX"⟩⟩

/-- A listing not matching the query remux. -/
def c8ItemB : Item := ⟨some ⟨some "Other.Film.WEB-DL", some "WEB-DL"⟩⟩

/-- The raw pre-filter response body with two listings. -/
def c8RawDoc : JsonDoc := ⟨some [c8ItemA, c8ItemB], false⟩

/-- The tracker of the export-payload scenario. -/
def c8T : Tracker := ⟨"Aither", "ATH", "key", "https://one.example"⟩

/-- One tracker whose response gets narrowed by the query remux. -/
def c8Pairs : List (Tracker × HttpResult) := [(c8T, .ok (some c8RawDoc))]

/-- The post-filter body actually recorded for export. -/
def c8FilteredDoc : JsonDoc := ⟨some [c8ItemA], false⟩

/-- First listing of the idempotence witness (matches matrix^1999). -/
def c9ItemA : Item := ⟨some ⟨some "The.Matrix.1999.REMUX", none⟩⟩

/-- Second listing of the idempotence witness (fails the term 1999). -/
def c9ItemB : Item := ⟨some ⟨some "The.Matrix.Reloaded.REMUX", none⟩⟩

/-- A concrete environment with the TMDb variables and one complete tracker
pair set. -/
def c10Env : String → Option String := fun k =>
  if k = "TMDB_API_KEY" then some "t"
  else if k = "TMDB_URL" then some "http://t"
  else if k = "ATH_API_KEY" then some "k1"
  else if k = "ATH_URL" then some "http://a"
  else none

theorem getName_of_wf :
    ∀ i : Item, wfItem i = true → getName i = .ok (getNameD i)
  | ⟨some ⟨some _, _⟩⟩, _ => rfl
  | ⟨some ⟨none, _⟩⟩, h => by simp [wfItem] at h
  | ⟨none⟩, h => by simp [wfItem] at h

theorem wf_of_getName_ok :
    ∀ i : Item, ∀ n, getName i = .ok n → wfItem i = true
  | ⟨some ⟨some _, _⟩⟩, _, _ => rfl
  | ⟨some ⟨none, _⟩⟩, _, h => by simp [getName, getAttrs] at h
  | ⟨none⟩, _, h => by simp [getName, getAttrs] at h

theorem pyFilterM_ok_of_all {p : α → Except ε Bool} {f : α → Bool} :
    ∀ {l : List α}, (∀ x ∈ l, p x = .ok (f x)) →
      pyFilterM p l = .ok (l.filter f)
  | [], _ => rfl
  | x :: xs, h => by
    have hx := h x (by simp)
    have ih := pyFilterM_ok_of_all (p := p) (f := f)
      (l := xs) (fun y hy => h y (by simp [hy]))
    rw [pyFilterM, hx, ih, List.filter_cons]

theorem pyFilterM_mem_true {p : α → Except ε Bool} :
    ∀ {l l' : List α}, pyFilterM p l = .ok l' → ∀ x ∈ l', p x = .ok true := by
  intro l
  induction l with
  | nil =>
    intro l' h x hx
    rw [pyFilterM] at h
    injection h with h
    subst h
    simp at hx
  | cons y ys ih =>
    intro l' h x hx
    rw [pyFilterM] at h
    match hy : p y with
    | .error e => rw [hy] at h; cases h
    | .ok b =>
      rw [hy] at h
      match hr : pyFilterM p ys with
      | .error e => rw [hr] at h; cases h
      | .ok r =>
        rw [hr] at h
        injection h with h
        subst h
        cases b with
        | true =>
          simp at hx
          rcases hx with hx1 | hx1
          · subst hx1; exact hy
          · exact ih hr x hx1
        | false =>
          simp at hx
          exact ih hr x hx

theorem pyFilterM_evals {p : α → Except ε Bool} :
    ∀ {l l' : List α}, pyFilterM p l = .ok l' → ∀ x ∈ l, ∃ b, p x = .ok b := by
  intro l
  induction l with
  | nil => intro l' _ x hx; simp at hx
  | cons y ys ih =>
    intro l' h x hx
    rw [pyFilterM] at h
    match hy : p y with
    | .error e => rw [hy] at h; cases h
    | .ok b =>
      rw [hy] at h
      match hr : pyFilterM p ys with
      | .error e => rw [hr] at h; cases h
      | .ok r =>
        rcases List.mem_cons.mp hx with hx1 | hx1
        · exact ⟨b, hx1 ▸ hy⟩
        · exact ih hr x hx1

theorem anyRowM_ok_of_all {p : β → Except ε Bool} {f : β → Bool} :
    ∀ {ys : List β}, (∀ y ∈ ys, p y = .ok (f y)) →
      anyRowM p ys = .ok (ys.any f)
  | [], _ => rfl
  | y :: ys, h => by
    have hy := h y (by simp)
    have ih : anyRowM p ys = .ok (ys.any f) :=
      anyRowM_ok_of_all (fun z hz => h z (by simp [hz]))
    rw [anyRowM, hy]
    cases hfy : f y with
    | true => simp [List.any_cons, hfy]
    | false => simpa [List.any_cons, hfy] using ih

theorem anyPairM_ok_of_all {p : α → β → Except ε Bool} {f : α → β → Bool} :
    ∀ {xs : List α} {ys : List β},
      (∀ x ∈ xs, ∀ y ∈ ys, p x y = .ok (f x y)) →
      anyPairM p xs ys = .ok (xs.any fun x => ys.any (f x))
  | [], _, _ => rfl
  | x :: xs, ys, h => by
    have hrow : anyRowM (p x) ys = .ok (ys.any (f x)) :=
      anyRowM_ok_of_all (fun y hy => h x (by simp) y hy)
    have ih : anyPairM p xs ys = .ok (xs.any fun x2 => ys.any (f x2)) :=
      anyPairM_ok_of_all (fun z hz y hy => h z (by simp [hz]) y hy)
    rw [anyPairM, hrow]
    cases hx : ys.any (f x) with
    | true => simp [List.any_cons, hx]
    | false => simpa [List.any_cons, hx] using ih

theorem itemMatches_of_wf {q : String} {i : Item} (h : wfItem i = true) :
    itemMatches q i = .ok (matchB q i) := by
  rw [itemMatches, getName_of_wf i h, matchB]

theorem filter_results_of_wf {items : List Item} {q : String}
    (h : ∀ i ∈ items, wfItem i = true) :
    filter_results items q = .ok (items.filter (matchB q)) :=
  pyFilterM_ok_of_all fun i hi => itemMatches_of_wf (h i hi)

theorem siteMediaTypes_ok_of_wf :
    ∀ {items : List Item}, (∀ i ∈ items, wfItem i = true) →
      ∃ smt, siteMediaTypes items = .ok smt
  | [], _ => ⟨[], rfl⟩
  | ⟨some a⟩ :: is, h => by
    obtain ⟨smt, hs⟩ := siteMediaTypes_ok_of_wf
      (show ∀ j ∈ is, wfItem j = true from fun j hj => h j (by simp [hj]))
    rw [siteMediaTypes]
    simp only [getAttrs, hs]
    cases hat : a.type with
    | some t => exact ⟨t :: smt, rfl⟩
    | none => exact ⟨smt, rfl⟩
  | ⟨none⟩ :: is, h => by
    have hi := h ⟨none⟩ (by simp)
    simp [wfItem] at hi

theorem siteMediaTypes_has_type :
    ∀ {items : List Item} {smt : List String},
      siteMediaTypes items = .ok smt →
      ∀ i ∈ items, ∀ a, i.attributes = some a → ∀ t, a.type = some t →
        t ∈ smt := by
  intro items
  induction items with
  | nil => intro smt h i hi; simp at hi
  | cons i is ih =>
    intro smt h j hj a hja t hat
    rw [siteMediaTypes] at h
    match ha : getAttrs i with
    | .error e => simp only [ha] at h; cases h
    | .ok a0 =>
      simp only [ha] at h
      match hr : siteMediaTypes is with
      | .error e => simp only [hr] at h; cases h
      | .ok rest =>
        simp only [hr] at h
        rcases List.mem_cons.mp hj with hj1 | hj1
        · subst hj1
          simp only [getAttrs, hja] at ha
          injection ha with ha
          subst ha
          simp only [hat] at h
          injection h with h
          subst h
          simp
        · cases hat0 : a0.type with
          | some t0 =>
            simp only [hat0] at h
            injection h with h
            subst h
            exact List.mem_cons_of_mem _ (ih hr j hj1 a hja t hat)
          | none =>
            simp only [hat0] at h
            injection h with h
            subst h
            exact ih hr j hj1 a hja t hat

theorem foundPair_of_wf {mt : String} {i : Item} {t : String}
    (h : wfItem i = true) :
    foundPair mt i t =
      .ok (pyIn (pyToLower mt) (pyToLower (getNameD i)) ||
        (pyToLower mt == pyToLower t)) := by
  rw [foundPair, getName_of_wf i h]

theorem mediaTypeFound_of_wf {mt : String} {items : List Item}
    {smt : List String} (h : ∀ i ∈ items, wfItem i = true) :
    mediaTypeFound mt items smt = .ok (foundB mt items smt) := by
  rw [mediaTypeFound, foundB]
  exact anyPairM_ok_of_all fun i hi t _ => foundPair_of_wf (h i hi)

theorem check_media_types_of_wf {items : List Item} {smt : List String}
    (hw : ∀ i ∈ items, wfItem i = true)
    (hs : siteMediaTypes items = .ok smt) :
    check_media_types items =
      .ok (MEDIA_TYPES.filter fun mt => !(foundB mt items smt)) := by
  rw [check_media_types, hs]
  exact pyFilterM_ok_of_all fun mt _ => by
    rw [mediaTypeFound_of_wf hw]

/-- C9: the Result Filter is idempotent.  For the driver revision: whenever
`filter_results` returns a list, re-filtering that list with the same query
returns it unchanged; for the `processing.py` revision: feeding its output
back in as the data list is a fixed point.  Confirmed. -/
theorem c9_filter_idempotent (items l : List Item) (q : String)
    (h : filter_results items q = .ok l) :
    filter_results l q = .ok l ∧
    ∀ doc : JsonDoc,
      processing_filter_results
        { doc with dataField := some (processing_filter_results doc q) } q =
      processing_filter_results doc q := by
  constructor
  · have h2 := pyFilterM_ok_of_all (p := itemMatches q) (f := fun _ => true)
      (l := l) (fun x hx => pyFilterM_mem_true h x hx)
    simpa [filter_results] using h2
  · intro doc
    conv_lhs => rw [processing_filter_results]
    simp only [Option.getD_some]
    rw [List.filter_eq_self]
    intro a ha
    rw [processing_filter_results] at ha
    exact (List.mem_filter.mp ha).2

/-- C9 witness: the specification example — listings The.Matrix.1999.REMUX
and The.Matrix.Reloaded.REMUX with query matrix^1999 filter to exactly the
first, and re-filtering is the identity on the result. -/
theorem c9_filter_idempotent_witness :
    filter_results [c9ItemA] "matrix^1999" = .ok [c9ItemA] ∧
    ∀ doc : JsonDoc,
      processing_filter_results
        { doc with dataField := some (processing_filter_results doc "matrix^1999") }
        "matrix^1999" =
      processing_filter_results doc "matrix^1999" :=
  c9_filter_idempotent [c9ItemA, c9ItemB] [c9ItemA] "matrix^1999" (by decide)

/-- C1 counterexample: a result set whose only listing is named Movie.REMUX
but carries no format-type field.  Both revisions of the Media Type Checker
report REMUX missing: the driver revision only consults names jointly with
the collected type values (an empty type list empties the whole generator),
and the `processing.py` revision never consults names at all.  This
falsifies the claim that a listing whose name contains REMUX never leaves
REMUX missing, and with it the claimed found-definition. -/
theorem c1_counterexample :
    pyIn "remux" (pyToLower (getNameD c1Item)) = true ∧
    check_media_types [c1Item] =
      .ok ["REMUX", "WEB-DL", "Encode", "Full Disc", "WEBip"] ∧
    processing_check_media_types ⟨some [c1Item], false⟩ =
      ["REMUX", "WEB-DL", "Encode", "Full Disc", "WEBRip", "HDTV"] :=
  ⟨by decide, by decide, by decide⟩

/-- C1 (amended): on well-formed listings the driver checker's missing list
is its fixed five-category list minus the categories found, where a
category is found only when some (listing, collected-type-value) pair
matches by name substring or type equality; consequently REMUX is never
missing when some listing carries a format-type field AND some listing's
name contains remux. -/
theorem c1_missing_types (items : List Item) (smt : List String)
    (hw : ∀ i ∈ items, wfItem i = true)
    (hs : siteMediaTypes items = .ok smt) :
    check_media_types items =
      .ok (MEDIA_TYPES.filter fun mt => !(foundB mt items smt)) ∧
    ((∃ i ∈ items, ∃ a, i.attributes = some a ∧ ∃ t, a.type = some t) →
      (∃ i ∈ items, pyIn "remux" (pyToLower (getNameD i)) = true) →
      ∀ missing, check_media_types items = .ok missing →
        "REMUX" ∉ missing) := by
  have hchar := check_media_types_of_wf hw hs
  refine ⟨hchar, ?_⟩
  rintro ⟨i0, hi0, a0, ha0, t0, ht0⟩ ⟨i1, hi1, hname⟩ missing hm hmem
  rw [hchar] at hm
  injection hm with hm
  subst hm
  have hmf := List.mem_filter.mp hmem
  have hfound : foundB "REMUX" items smt = true := by
    rw [foundB, List.any_eq_true]
    refine ⟨i1, hi1, ?_⟩
    rw [List.any_eq_true]
    refine ⟨t0, siteMediaTypes_has_type hs i0 hi0 a0 ha0 t0 ht0, ?_⟩
    have hlow : pyToLower "REMUX" = "remux" := by decide
    rw [hlow, hname]
    rfl
  rw [hfound] at hmf
  simp at hmf

/-- C1 witness: a single listing named Movie.REMUX with format type WEB-DL;
the collected type list is [WEB-DL] and REMUX is not reported missing. -/
theorem c1_missing_types_witness :
    "REMUX" ∉ MEDIA_TYPES.filter fun mt => !(foundB mt [c1WItem] ["WEB-DL"]) :=
  (c1_missing_types [c1WItem] ["WEB-DL"] (by decide) (by decide)).2
    ⟨c1WItem, by decide, ⟨some "Movie.REMUX", some "WEB-DL"⟩, by decide,
      "WEB-DL", by decide⟩
    ⟨c1WItem, by decide, by decide⟩
    (MEDIA_TYPES.filter fun mt => !(foundB mt [c1WItem] ["WEB-DL"]))
    (by decide)

/-- C2 counterexample: with query matrix^ 1999 (whitespace around the
second term) against the listing The.Matrix.1999.REMUX, every TRIMMED term
is a substring of the lowercased name — so the claim requires the listing
to be returned — yet the driver filter excludes it, because it does not
trim terms. -/
theorem c2_counterexample :
    filter_results [c2Item] "matrix^ 1999" = .ok [] ∧
    ((pySplitCaret "matrix^ 1999").map fun t => pyToLower (pyTrim t)).all
      (fun term => pyIn term (pyToLower (getNameD c2Item))) = true :=
  ⟨by decide, by decide⟩

/-- C2 (amended): the driver filter splits the query on the caret and keeps
exactly the listings whose lowercased name contains every RAW (untrimmed)
lowercased term; the trimming described by the claim is performed only by
the `processing.py` revision, which keeps exactly the listings whose
lowercased name contains every trimmed lowercased term. -/
theorem c2_filter_characterization (items : List Item) (q : String)
    (l : List Item) (hw : ∀ i ∈ items, wfItem i = true)
    (hf : filter_results items q = .ok l) :
    (∀ i, i ∈ l ↔ i ∈ items ∧
      ∀ term ∈ pySplitCaret q,
        pyIn (pyToLower term) (pyToLower (getNameD i)) = true) ∧
    (∀ doc i, i ∈ processing_filter_results doc q ↔
      i ∈ doc.dataField.getD [] ∧
      ∀ term ∈ pySplitCaret q,
        pyIn (pyToLower (pyTrim term)) (pyToLower (getNameD i)) = true) := by
  constructor
  · have hchar : filter_results items q = .ok (items.filter (matchB q)) :=
      filter_results_of_wf hw
    rw [hf] at hchar
    have hl : l = items.filter (matchB q) := Except.ok.inj hchar
    intro i
    rw [hl, List.mem_filter, matchB]
    simp [List.all_eq_true]
  · intro doc i
    rw [processing_filter_results, List.mem_filter, processingTerms]
    simp [List.all_eq_true]

/-- C2 witness: the specification example instantiated for the driver
filter with query matrix^1999. -/
theorem c2_filter_characterization_witness :
    c2Item ∈ [c2Item] ↔ c2Item ∈ [c2Item] ∧
      ∀ term ∈ pySplitCaret "matrix^1999",
        pyIn (pyToLower term) (pyToLower (getNameD c2Item)) = true :=
  (c2_filter_characterization [c2Item] "matrix^1999" [c2Item]
    (by decide) (by decide)).1 c2Item

/-- C3 counterexample: in the three-tracker scenario (empty credentials /
500 status / valid data) the failed mapping records ONLY the
missing-credentials tracker; the transport-failed tracker Blutopia gets no
entry at all — the `requests.RequestException` handler only logs — so the
claimed RequestFailed record carrying the error text does not exist. -/
theorem c3_counterexample :
    query_additional_apis none c3Pairs =
      .ok ⟨[("Aither", "Missing API key")], ["FearNoPeer"],
           [(c3Doc, "FNP", "FearNoPeer")],
           [("FearNoPeer", ["WEB-DL", "Encode", "Full Disc", "WEBip"])],
           ["Blutopia", "FearNoPeer"]⟩ ∧
    ∀ reason, ("Blutopia", reason) ∉ [("Aither", "Missing API key")] := by
  refine ⟨by decide, ?_⟩
  intro reason h
  simp at h

/-- C3 (amended): a transport-level failure is terminal but only logged —
the aggregate is unchanged apart from the record of the attempted request,
so no failure entry and no success entry is produced for that tracker; the
three-tracker scenario therefore yields exactly one Missing API key
failure, no RequestFailed entry, and one successful tracker. -/
theorem c3_transport_failure_logged_only (q : Option String) (st : AggState)
    (t : Tracker) (m : String) (hk : t.api_key ≠ "") :
    processTracker q st t (.exn m) =
      .ok { st with requested := st.requested ++ [t.name] } ∧
    (∃ st1, query_additional_apis none c3Pairs = .ok st1 ∧
      st1.failed = [("Aither", "Missing API key")] ∧
      st1.successful = ["FearNoPeer"]) := by
  constructor
  · rw [processTracker, if_neg hk, processNet]
  · exact ⟨⟨[("Aither", "Missing API key")], ["FearNoPeer"],
      [(c3Doc, "FNP", "FearNoPeer")],
      [("FearNoPeer", ["WEB-DL", "Encode", "Full Disc", "WEBip"])],
      ["Blutopia", "FearNoPeer"]⟩, by decide, rfl, rfl⟩

/-- C3 witness: the transport-failure fact instantiated at the Blutopia
tracker of the scenario. -/
theorem c3_transport_failure_logged_only_witness :
    processTracker none initState c3T2 (.exn "boom") =
      .ok { initState with requested := initState.requested ++ [c3T2.name] } ∧
    (∃ st1, query_additional_apis none c3Pairs = .ok st1 ∧
      st1.failed = [("Aither", "Missing API key")] ∧
      st1.successful = ["FearNoPeer"]) :=
  c3_transport_failure_logged_only none initState c3T2 "boom" (by decide)

/-- C4 counterexample: with an active query remux and a tracker whose
response survives the filter, the run records a missing-media entry for
that tracker — classification is NOT skipped when a query is supplied, so
the tracker does contribute to the missing media mapping. -/
theorem c4_counterexample :
    query_additional_apis (some "remux") c4Pairs = .ok c4State ∧
    c4State.missing_media ≠ [] := by
  exact ⟨by decide, by decide⟩

/-- C4 (amended): classification runs even when a query is active (on the
filtered listings) and populates the missing-media mapping; only the
missing-media TABLE is suppressed for query runs, since the display guard
requires a falsy query. -/
theorem c4_classification_not_skipped (q : String) (hq : q ≠ "")
    (st : AggState) :
    missingTableDisplayed (some q) st = false ∧
    (∃ st1, query_additional_apis (some "remux") c4Pairs = .ok st1 ∧
      st1.missing_media ≠ []) := by
  constructor
  · simp [missingTableDisplayed, queryTruthy, hq]
  · exact ⟨c4State, by decide, by decide⟩

/-- C4 witness: the display guard instantiated at the query remux. -/
theorem c4_classification_not_skipped_witness :
    missingTableDisplayed (some "remux") c4State = false ∧
    (∃ st1, query_additional_apis (some "remux") c4Pairs = .ok st1 ∧
      st1.missing_media ≠ []) :=
  c4_classification_not_skipped "remux" (by decide) c4State

/-- C5 counterexample: the first tracker's parseable response contains a
listing without a name field; the `KeyError` raised inside the nested
`filter_results` is not a `requests.RequestException`, so it propagates and
aborts the whole run — the second, healthy tracker (which alone would have
succeeded) is never processed. -/
theorem c5_counterexample :
    query_additional_apis (some "x") c5Pairs = .error (.keyError "name") ∧
    query_additional_apis (some "x") [(c5T2, .ok (some c5GoodDoc))] =
      .ok c5GoodState := by
  exact ⟨by decide, by decide⟩

/-- C5 (amended): only `requests.RequestException` is isolated per tracker
— after a transport failure the loop continues with the next tracker — but
a structural `KeyError` from filtering or classification propagates and
prevents the processing of all subsequent trackers. -/
theorem c5_isolation_only_for_request_exceptions (q : Option String)
    (st : AggState) (t : Tracker) (m : String)
    (rest : List (Tracker × HttpResult)) (hk : t.api_key ≠ "") :
    runTrackers q st ((t, .exn m) :: rest) =
      runTrackers q { st with requested := st.requested ++ [t.name] } rest ∧
    query_additional_apis (some "x") c5Pairs = .error (.keyError "name") := by
  constructor
  · rw [runTrackers, processTracker, if_neg hk, processNet]
  · decide

/-- C5 witness: the continuation fact instantiated at a concrete transport
failure followed by the healthy tracker. -/
theorem c5_isolation_only_for_request_exceptions_witness :
    runTrackers (some "x") initState
        ((c5T1, .exn "timeout") :: [(c5T2, .ok (some c5GoodDoc))]) =
      runTrackers (some "x")
        { initState with requested := initState.requested ++ [c5T1.name] }
        [(c5T2, .ok (some c5GoodDoc))] ∧
    query_additional_apis (some "x") c5Pairs = .error (.keyError "name") :=
  c5_isolation_only_for_request_exceptions (some "x") initState c5T1
    "timeout" [(c5T2, .ok (some c5GoodDoc))] (by decide)

/-- C6 counterexample: a tracker with an API key but an empty base URL is
NOT recorded as missing credentials — the code checks only the API key —
and the request is attempted (the `requests.get` call is reached; with an
empty URL it raises `MissingSchema`, which is merely logged), so the run
ends with an empty failed mapping and the tracker among the attempted
requests. -/
theorem c6_counterexample :
    query_additional_apis none c6Pairs = .ok ⟨[], [], [], [], ["Blutopia"]⟩ := by
  decide

/-- C6 (amended): only a missing API key triggers the credentials guard:
the tracker is recorded as failed with reason Missing API key and no
request is attempted, regardless of its URL; a tracker with a key — even
with an empty URL — always proceeds to the request attempt, and on the
resulting request exception receives no failure entry. -/
theorem c6_missing_key_only (q : Option String) (st : AggState) (t : Tracker)
    (net : HttpResult) (hk : t.api_key = "") :
    processTracker q st t net =
      .ok { st with failed := dictSet st.failed t.name "Missing API key" } ∧
    (∀ t1 m, t1.api_key ≠ "" →
      processTracker q st t1 (.exn m) =
        .ok { st with requested := st.requested ++ [t1.name] }) := by
  constructor
  · rw [processTracker, if_pos hk]
  · intro t1 m hk1
    rw [processTracker, if_neg hk1, processNet]

/-- C6 witness: the guard instantiated at a keyless tracker with a URL and
at the empty-URL tracker of the counterexample. -/
theorem c6_missing_key_only_witness :
    processTracker none initState c3T1 (.exn "unused") =
      .ok { initState with
        failed := dictSet initState.failed c3T1.name "Missing API key" } ∧
    (∀ t1 m, t1.api_key ≠ "" →
      processTracker none initState t1 (.exn m) =
        .ok { initState with requested := initState.requested ++ [t1.name] }) :=
  c6_missing_key_only none initState c3T1 (.exn "unused") (by decide)

/-- C7 (code bug): with export enabled, the run does not write one file per
successful tracker.  First, the collected payload list is appended before
any success check, so non-successful (parse-ok but empty) trackers are
collected too; second — and fatally — the export loop calls the nested
four-parameter `export_json` with only three arguments, so its first
iteration raises `TypeError` and no file is ever written.  The filename
builder itself is the claimed pure function of code and TMDb id. -/
theorem c7_export_crashes :
    query_additional_apis none c7Pairs = .ok c7State ∧
    c7State.collected ≠ [] ∧
    exportPhase true c7State.collected =
      .error (.typeError
        ("export_json() missing 1 required positional argument: " ++
          sq ++ "tracker_name" ++ sq)) ∧
    exportFileName "ATH" "12345" = "ATH_TMDb_12345.json" ∧
    query_additional_apis none c7Pairs2 =
      .ok ⟨[("Aither", "No matching results")], [],
           [(c7EmptyDoc, "ATH", "Aither")], [], ["Aither"]⟩ :=
  ⟨by decide, by decide, by decide, by decide, by decide⟩

/-- C8 counterexample: with query remux over a two-listing response, the
payload recorded for export is the post-filter body (a single listing), not
the raw pre-filter body: the source appends the response dict to the
collected list and then mutates that same dict in place with the filtered
results, so the reference recorded for export sees the narrowed data. -/
theorem c8_counterexample :
    query_additional_apis (some "remux") c8Pairs =
      .ok ⟨[], ["Aither"], [(c8FilteredDoc, "ATH", "Aither")],
           [("Aither", ["WEB-DL", "Encode", "Full Disc", "WEBip"])],
           ["Aither"]⟩ ∧
    c8FilteredDoc ≠ c8RawDoc :=
  ⟨by decide, by decide⟩

theorem wfItem_of_itemMatches {q : String} {i : Item} {b : Bool}
    (h : itemMatches q i = .ok b) : wfItem i = true := by
  rw [itemMatches] at h
  match hn : getName i with
  | .error e => rw [hn] at h; cases h
  | .ok n => exact wf_of_getName_ok i n hn

/-- C8 (amended): whenever a truthy query filters a tracker's non-empty
response down to a non-empty list, the payload appended to the collected
(export) list is the response body with its data list replaced by the
filtered results — the post-filter body, not the raw pre-filter one. -/
theorem c8_export_payload_post_filter (st : AggState) (t : Tracker)
    (doc : JsonDoc) (q : String) (filtered : List Item)
    (hk : t.api_key ≠ "") (hq : queryTruthy (some q) = true)
    (hd : docHasResults doc = true)
    (hf : filter_results (doc.dataField.getD []) q = .ok filtered)
    (hne : filtered ≠ []) :
    ∃ st1, processTracker (some q) st t (.ok (some doc)) = .ok st1 ∧
      st1.collected = st.collected ++
        [({ doc with dataField := some filtered }, t.code, t.name)] := by
  obtain ⟨f, fs, rfl⟩ : ∃ f fs, filtered = f :: fs := by
    cases filtered with
    | nil => exact absurd rfl hne
    | cons f fs => exact ⟨f, fs, rfl⟩
  have hwfF : ∀ i ∈ f :: fs, wfItem i = true := fun i hi =>
    wfItem_of_itemMatches (pyFilterM_mem_true hf i hi)
  obtain ⟨smt, hsmt⟩ := siteMediaTypes_ok_of_wf hwfF
  have hcheck := check_media_types_of_wf hwfF hsmt
  rw [processTracker, if_neg hk, processNet, processDoc, if_pos hd,
    if_pos hq]
  simp only [Option.getD_some, hf]
  simp only [afterFilter, Option.getD_some, hcheck]
  exact ⟨_, rfl, rfl⟩

/-- C8 witness: the post-filter payload fact instantiated at the
two-listing scenario. -/
theorem c8_export_payload_post_filter_witness :
    ∃ st1,
      processTracker (some "remux") initState c8T (.ok (some c8RawDoc)) =
        .ok st1 ∧
      st1.collected = initState.collected ++
        [({ c8RawDoc with dataField := some [c8ItemA] }, c8T.code, c8T.name)] :=
  c8_export_payload_post_filter initState c8T c8RawDoc "remux" [c8ItemA]
    (by decide) (by decide) (by decide) (by decide) (by decide)

theorem dictSet_mem :
    ∀ {d : List (String × String)} {k v : String} {r : String × String},
      r ∈ dictSet d k v → r = (k, v) ∨ r ∈ d := by
  intro d
  induction d with
  | nil =>
    intro k v r h
    rw [dictSet] at h
    exact Or.inl (List.mem_singleton.mp h)
  | cons p rest ih =>
    intro k v r h
    obtain ⟨k1, v1⟩ := p
    rw [dictSet] at h
    by_cases hk : k1 = k
    · rw [if_pos hk] at h
      rcases List.mem_cons.mp h with h1 | h1
      · exact Or.inl h1
      · exact Or.inr (List.mem_cons_of_mem _ h1)
    · rw [if_neg hk] at h
      rcases List.mem_cons.mp h with h1 | h1
      · exact Or.inr (h1 ▸ List.mem_cons_self _ _)
      · rcases ih h1 with h2 | h2
        · exact Or.inl h2
        · exact Or.inr (List.mem_cons_of_mem _ h2)

theorem noMatchReason_ne (q : String) :
    noMatchReason q ≠ "Missing API key" := by
  intro h
  have hlen := congrArg String.length h
  rw [noMatchReason] at hlen
  simp only [String.length_append] at hlen
  have h1 : "No results matching query ".length = 26 := by decide
  have h2 : sq.length = 1 := by decide
  have h3 : "Missing API key".length = 15 := by decide
  rw [h1, h2, h3] at hlen
  omega

theorem processTracker_keeps_reasons {q : Option String} {st st1 : AggState}
    {t : Tracker} {net : HttpResult} (hk : t.api_key ≠ "")
    (hrun : processTracker q st t net = .ok st1)
    (hinv : ∀ r ∈ st.failed, r.2 ≠ "Missing API key") :
    ∀ r ∈ st1.failed, r.2 ≠ "Missing API key" := by
  rw [processTracker, if_neg hk] at hrun
  cases net with
  | exn m =>
    rw [processNet] at hrun
    injection hrun with hrun
    subst hrun
    exact hinv
  | ok body =>
    cases body with
    | none =>
      rw [processNet] at hrun
      injection hrun with hrun
      subst hrun
      intro r hr
      rcases dictSet_mem hr with h1 | h1
      · rw [h1]
        show "Invalid JSON response" ≠ "Missing API key"
        decide
      · exact hinv r h1
    | some doc =>
      rw [processNet, processDoc] at hrun
      by_cases hd : docHasResults doc = true
      · rw [if_pos hd] at hrun
        by_cases hqt : queryTruthy q = true
        · rw [if_pos hqt] at hrun
          match hfr : filter_results (doc.dataField.getD []) (q.getD "") with
          | .error e => rw [hfr] at hrun; cases hrun
          | .ok [] =>
            rw [hfr] at hrun
            injection hrun with hrun
            subst hrun
            intro r hr
            rcases dictSet_mem hr with h1 | h1
            · rw [h1]
              show noMatchReason (q.getD "") ≠ "Missing API key"
              exact noMatchReason_ne _
            · exact hinv r h1
          | .ok (f :: fs) =>
            rw [hfr] at hrun
            simp only [afterFilter, Option.getD_some] at hrun
            match hc : check_media_types (f :: fs) with
            | .error e => rw [hc] at hrun; cases hrun
            | .ok missing =>
              rw [hc] at hrun
              injection hrun with hrun
              subst hrun
              exact hinv
        · rw [if_neg hqt] at hrun
          simp only [afterFilter] at hrun
          match hc : check_media_types (doc.dataField.getD []) with
          | .error e => rw [hc] at hrun; cases hrun
          | .ok missing =>
            rw [hc] at hrun
            injection hrun with hrun
            subst hrun
            exact hinv
      · rw [if_neg hd] at hrun
        injection hrun with hrun
        subst hrun
        intro r hr
        rcases dictSet_mem hr with h1 | h1
        · rw [h1]
          show "No matching results" ≠ "Missing API key"
          decide
        · exact hinv r h1

theorem runTrackers_keeps_reasons {q : Option String} :
    ∀ {pairs : List (Tracker × HttpResult)} {st st1 : AggState},
      (∀ p ∈ pairs, p.1.api_key ≠ "") →
      (∀ r ∈ st.failed, r.2 ≠ "Missing API key") →
      runTrackers q st pairs = .ok st1 →
      ∀ r ∈ st1.failed, r.2 ≠ "Missing API key" := by
  intro pairs
  induction pairs with
  | nil =>
    intro st st1 _ hinv hrun
    rw [runTrackers] at hrun
    injection hrun with hrun
    subst hrun
    exact hinv
  | cons p rest ih =>
    intro st st1 hkeys hinv hrun
    obtain ⟨t, net⟩ := p
    rw [runTrackers] at hrun
    match hp : processTracker q st t net with
    | .error e => rw [hp] at hrun; cases hrun
    | .ok st2 =>
      rw [hp] at hrun
      have hk : t.api_key ≠ "" := hkeys (t, net) (by simp)
      have hinv2 := processTracker_keeps_reasons hk hp hinv
      exact ih (fun p2 hp2 => hkeys p2 (by simp [hp2])) hinv2 hrun

/-- C10: every tracker produced by environment validation carries a
non-empty API key and a non-empty URL; when no tracker qualifies,
validation errors instead of returning an empty list; and consequently the
driver's missing-API-key branch never fires for validated trackers — no
failed entry of such a run ever carries the reason Missing API key.
Confirmed. -/
theorem c10_validated_trackers (env : String → Option String)
    (trackers : List Tracker)
    (h : validate_env_vars env = .ok trackers) :
    trackers ≠ [] ∧
    (∀ t ∈ trackers, t.api_key ≠ "" ∧ t.url ≠ "") ∧
    (∀ q (nets : List HttpResult) st,
      query_additional_apis q (trackers.zip nets) = .ok st →
      ∀ r ∈ st.failed, r.2 ≠ "Missing API key") := by
  simp only [validate_env_vars] at h
  split at h
  · cases h
  · split at h
    case isTrue hempty => cases h
    case isFalse hempty =>
      injection h with h
      subst h
      have hmem : ∀ t ∈ TRACKER_CONFIG.filterMap fun site =>
          match env (site.key ++ "_API_KEY"), env (site.key ++ "_URL") with
          | some k, some u =>
            if k ≠ "" ∧ u ≠ "" then
              (some ⟨site.name, site.key, k, u⟩ : Option Tracker)
            else none
          | _, _ => none,
          t.api_key ≠ "" ∧ t.url ≠ "" := by
        intro t ht
        obtain ⟨site, hsite, hf⟩ := List.mem_filterMap.mp ht
        rcases henvk : env (site.key ++ "_API_KEY") with _ | k
        · simp only [henvk] at hf
          exact Option.noConfusion hf
        · simp only [henvk] at hf
          rcases henvu : env (site.key ++ "_URL") with _ | u
          · simp only [henvu] at hf
            exact Option.noConfusion hf
          · simp only [henvu] at hf
            by_cases hcnd : k ≠ "" ∧ u ≠ ""
            · rw [if_pos hcnd] at hf
              injection hf with hf
              subst hf
              exact ⟨hcnd.1, hcnd.2⟩
            · rw [if_neg hcnd] at hf; exact Option.noConfusion hf
      refine ⟨?_, hmem, ?_⟩
      · intro heq
        rw [heq] at hempty
        exact hempty rfl
      · intro q nets st hrun r hr
        refine runTrackers_keeps_reasons ?_ ?_ hrun r hr
        · intro p hp
          obtain ⟨t, net⟩ := p
          exact (hmem t (List.of_mem_zip hp).1).1
        · intro r2 hr2
          simp [initState] at hr2

/-- C10 witness: an environment enabling only the Aither tracker pair. -/
theorem c10_validated_trackers_witness :
    ([⟨"Aither", "ATH", "k1", "http://a"⟩] : List Tracker) ≠ [] ∧
    (∀ t ∈ ([⟨"Aither", "ATH", "k1", "http://a"⟩] : List Tracker),
      t.api_key ≠ "" ∧ t.url ≠ "") ∧
    (∀ q (nets : List HttpResult) st,
      query_additional_apis q
          (([⟨"Aither", "ATH", "k1", "http://a"⟩] : List Tracker).zip nets) =
        .ok st →
      ∀ r ∈ st.failed, r.2 ≠ "Missing API key") :=
  c10_validated_trackers c10Env [⟨"Aither", "ATH", "k1", "http://a"⟩]
    (by decide)

end MediaFinder
